import Mathlib

/-!
# Swingalyze landmark-to-metrics pipeline: shallow embedding

Embedding of the analysis core of the Swingalyze repository
(`backend/pose_analyzer.py`, `backend/swing_analyzer.py`, `backend/server.py`,
`backend/fast_analysis.py`).

Conventions of the embedding:

* Python floats carried around by the pipeline are dyadic rationals; they are
  modelled exactly by `ℚ`.  Comparisons and arithmetic on them are exact.
* Irrational intermediate values produced by `sqrt`/`arccos` are modelled in
  `ℝ`; those definitions are `noncomputable` but every proposition proved about
  them is settled by branch analysis, never by evaluating a transcendental.
* An IEEE-754 NaN produced by an unguarded `0.0/0.0` is modelled as `none` of
  an `Option` result; a NaN propagates through `np.clip`, `np.arccos` and
  `np.degrees`, so a function whose division was fed a zero denominator
  returns NaN overall.
* Python dict membership tests are modelled by `List.lookup` on association
  lists kept in insertion order.
-/

/-- A detected landmark as stored by `pose_analyzer.PoseLandmark`
(pose_analyzer.py:8-13): normalized coordinates plus a visibility score. -/
structure PoseLandmark where
  x : ℚ
  y : ℚ
  z : ℚ
  visibility : ℚ
  deriving DecidableEq, Repr

/-- The 2-D vector `a − b` built from the `x`,`y` fields only, as in
`np.array([p.x, p.y])` subtraction (pose_analyzer.py:52-58).  The `z` and
`visibility` fields are never read. -/
def vecXY (a b : PoseLandmark) : ℚ × ℚ := (a.x - b.x, a.y - b.y)

/-- Models `np.dot` on 2-D vectors. -/
def dotQ (u v : ℚ × ℚ) : ℚ := u.1 * v.1 + u.2 * v.2

/-- Squared Euclidean norm; `np.linalg.norm v = Real.sqrt (normSq v)`.
`normSq v = 0 ↔ v = (0, 0)`, so the exact float test `norm == 0` of the
source is equivalent to the vector being zero. -/
def normSq (v : ℚ × ℚ) : ℚ := v.1 * v.1 + v.2 * v.2

/-- Embeds `PoseAnalyzer.calculate_angle` (pose_analyzer.py:49-64).  The source
computes `cosine = np.dot(ba, bc) / (|ba| * |bc|)` with no zero-denominator
guard; when either vector has zero length the denominator is `0.0` and the
numerator is `0.0`, so IEEE division yields NaN (numpy emits a warning, it
does not raise), and the NaN propagates through `np.clip`, `np.arccos` and
`np.degrees`.  The `none` branch models exactly that NaN result; the guard
condition `ba = 0 ∨ bc = 0` is equivalent to `|ba| * |bc| = 0`. -/
noncomputable def calculate_angle (point1 point2 point3 : PoseLandmark) : Option ℝ :=
  let ba := vecXY point1 point2
  let bc := vecXY point3 point2
  if ba = (0, 0) ∨ bc = (0, 0) then
    none
  else
    some (Real.arccos (max (-1) (min 1
      ((dotQ ba bc : ℝ) / (Real.sqrt (normSq ba) * Real.sqrt (normSq bc)))))
      * 180 / Real.pi)

/-- A landmark as extracted by `GolfPoseDetector.extract_landmarks`
(server.py:109-129): `x`,`y` are pixel integers, `z` and `visibility` floats. -/
structure ServerLandmark where
  x : ℤ
  y : ℤ
  z : ℚ
  visibility : ℚ
  deriving DecidableEq, Repr

/-- Integer 2-D vector `a − b` from server landmarks (server.py:181-182). -/
def vecS (a b : ServerLandmark) : ℤ × ℤ := (a.x - b.x, a.y - b.y)

/-- Models `np.dot` on integer 2-D vectors. -/
def dotZ (u v : ℤ × ℤ) : ℤ := u.1 * v.1 + u.2 * v.2

/-- Squared Euclidean norm of an integer vector;
`np.linalg.norm v = Real.sqrt (normSqZ v)` and that norm is `0` iff `v = 0`. -/
def normSqZ (v : ℤ × ℤ) : ℤ := v.1 * v.1 + v.2 * v.2

/-- Embeds `GolfPoseDetector.calculate_joint_angle` (server.py:177-198): the
variant of the three-point angle that carries an explicit zero-length-vector
guard (`if norm1 == 0 or norm2 == 0: return 0.0`).  The float test
`norm == 0` holds exactly when the integer vector is zero.  The surrounding
`try/except` returning `0.0` is unreachable in the model (no operation can
raise once the guard has run), so it is not represented. -/
noncomputable def calculate_joint_angle (point1 point2 point3 : ServerLandmark) : ℝ :=
  let vector1 := vecS point1 point2
  let vector2 := vecS point3 point2
  if vector1 = (0, 0) ∨ vector2 = (0, 0) then
    0
  else
    Real.arccos (max (-1) (min 1
      ((dotZ vector1 vector2 : ℝ) / (Real.sqrt (normSqZ vector1) * Real.sqrt (normSqZ vector2)))))
      * 180 / Real.pi

/-! ## Landmark and angle key names

String literals used as dict keys in the source, bound to named constants. -/

def right_wrist_key : String := "right_wrist"

def left_wrist_key : String := "left_wrist"

def left_hip_key : String := "left_hip"

def right_hip_key : String := "right_hip"

def spine_tilt_key : String := "spine_tilt"

def left_arm_key : String := "left_arm"

def right_arm_key : String := "right_arm"

/-- One entry of the surviving frame sequence, `pose_analyzer.SwingFrame`
(pose_analyzer.py:15-20).  The landmark and angle dicts are association lists
in insertion order. -/
structure SwingFrame where
  frame_number : ℕ
  timestamp : ℚ
  landmarks : List (String × PoseLandmark)
  angles : List (String × ℚ)
  deriving DecidableEq, Repr

/-! ## Phase segmentation, `SwingAnalyzer._detect_swing_phases` -/

/-- Wrist trajectory extraction (swing_analyzer.py:128-135): per frame, the
`right_wrist` landmark if present, else `left_wrist`, collected as
`(x, y, frame_number)`. -/
def wrist_positions (swing_frames : List SwingFrame) : List (ℚ × ℚ × ℕ) :=
  swing_frames.filterMap fun frame =>
    match frame.landmarks.lookup right_wrist_key with
    | some wrist => some (wrist.x, wrist.y, frame.frame_number)
    | none =>
      match frame.landmarks.lookup left_wrist_key with
      | some wrist => some (wrist.x, wrist.y, frame.frame_number)
      | none => none

/-- Models `np.argmin`: index of the first minimal element of the list (callers never
apply it to an empty list; the `0` default is unreachable there). -/
def argminIdx (l : List ℚ) : ℕ :=
  (List.range l.length).foldl
    (fun best i => if l.getD i 0 < l.getD best 0 then i else best) 0

/-- Reads `swing_frames[i].timestamp`; every index the segmenter produces is in
bounds, so the default is unreachable. -/
def tsAt (swing_frames : List SwingFrame) (i : ℕ) : ℚ :=
  (swing_frames.getD i ⟨0, 0, [], []⟩).timestamp

/-- The velocity-proxy list of swing_analyzer.py:150-154:
`(|y[i] − y[i−1]|, i)` for `i` in `range(top_frame+1, min(len ys, top_frame+15))`
(the `i > 0` test of the source is vacuous since `i ≥ top_frame+1 ≥ 1`). -/
def velocities (ys : List ℚ) (top_frame : ℕ) : List (ℚ × ℕ) :=
  (List.range' (top_frame + 1) (min ys.length (top_frame + 15) - (top_frame + 1))).map
    fun i => (|ys.getD i 0 - ys.getD (i - 1) 0|, i)

/-- Python `max(l, key=fst)`: the first element attaining the maximal key;
`none` on the empty list (the source guards with `if velocities:`). -/
def firstMaxBy (l : List (ℚ × ℕ)) : Option (ℚ × ℕ) :=
  l.foldl
    (fun acc p =>
      match acc with
      | none => some p
      | some q => if q.1 < p.1 then some p else some q)
    none

/-- One key moment: the `{"frame": i, "timestamp": t}` sub-dict of
swing_analyzer.py:160-165. -/
structure PhasePoint where
  frame : ℕ
  timestamp : ℚ
  deriving DecidableEq, Repr

/-- The phase dict returned by `_detect_swing_phases` on success
(swing_analyzer.py:160-167). -/
structure KeyPhases where
  setup : PhasePoint
  top_of_backswing : PhasePoint
  impact : PhasePoint
  follow_through : PhasePoint
  deriving DecidableEq, Repr

def insufficient_frames_msg : String := "Insufficient frames for phase detection"

def insufficient_wrist_msg : String := "Insufficient wrist tracking data"

/-- Embeds `SwingAnalyzer._detect_swing_phases` (swing_analyzer.py:122-167).
The source returns a dict that either holds a single `"error"` key
(modelled `.error`) or the four key-moment entries (modelled `.ok`).
Note the source indexes `swing_frames` with positions computed on the
filtered `wrist_positions` list, exactly as reproduced here. -/
def detect_swing_phases (swing_frames : List SwingFrame) : Except String KeyPhases :=
  if swing_frames.length < 10 then .error insufficient_frames_msg
  else
    let wps := wrist_positions swing_frames
    if wps.length < 5 then .error insufficient_wrist_msg
    else
      let y_positions := wps.map fun p => p.2.1
      let setup_frame := 0
      let top_frame := argminIdx y_positions
      let impact_frame :=
        if top_frame < y_positions.length - 5 then
          match firstMaxBy (velocities y_positions top_frame) with
          | some p => p.2
          | none => wps.length - 1
        else wps.length - 1
      let impact_idx := min impact_frame (swing_frames.length - 1)
      .ok
        { setup := ⟨setup_frame, tsAt swing_frames setup_frame⟩
          top_of_backswing := ⟨top_frame, tsAt swing_frames top_frame⟩
          impact := ⟨impact_idx, tsAt swing_frames impact_idx⟩
          follow_through := ⟨swing_frames.length - 1, tsAt swing_frames (swing_frames.length - 1)⟩ }

/-! ## Sequence metrics, `SwingAnalyzer._calculate_swing_metrics` -/

/-- The downswing duration of swing_analyzer.py:199, defined exactly when the
phase keys `setup`/`top_of_backswing`/`impact` are present (i.e. when
`_detect_swing_phases` did not return its error dict). -/
def downswing_time (swing_frames : List SwingFrame) : Option ℚ :=
  match detect_swing_phases swing_frames with
  | .error _ => none
  | .ok p => some (p.impact.timestamp - p.top_of_backswing.timestamp)

/-- The `tempo_ratio` entry of the metrics dict (swing_analyzer.py:195-203):
present only when the phases were detected and `downswing_time > 0`. -/
def tempo_ratio (swing_frames : List SwingFrame) : Option ℚ :=
  match detect_swing_phases swing_frames with
  | .error _ => none
  | .ok p =>
    let backswing_time := p.top_of_backswing.timestamp - p.setup.timestamp
    let dst := p.impact.timestamp - p.top_of_backswing.timestamp
    if 0 < dst then some (backswing_time / dst) else none

/-- For each consecutive frame pair in which both frames carry `right_wrist`
and the timestamp gap is positive: the squared wrist displacement and the gap
(swing_analyzer.py:174-189).  The speed the source appends is
`Real.sqrt d2 / dt`. -/
def wrist_speed_data (swing_frames : List SwingFrame) : List (ℚ × ℚ) :=
  (swing_frames.zip swing_frames.tail).filterMap fun pq =>
    match pq.1.landmarks.lookup right_wrist_key, pq.2.landmarks.lookup right_wrist_key with
    | some prev_wrist, some curr_wrist =>
      let d2 := (curr_wrist.x - prev_wrist.x) ^ 2 + (curr_wrist.y - prev_wrist.y) ^ 2
      let dt := pq.2.timestamp - pq.1.timestamp
      if 0 < dt then some (d2, dt) else none
    | _, _ => none

noncomputable def wrist_speeds (swing_frames : List SwingFrame) : List ℝ :=
  (wrist_speed_data swing_frames).map fun p => Real.sqrt p.1 / p.2

/-- Python `max(l)` on a nonempty list (callers guard emptiness; `0` default). -/
def listMaxQ (l : List ℚ) : ℚ :=
  match l with
  | [] => 0
  | x :: xs => xs.foldl max x

/-- Python `min(l)` on a nonempty list. -/
def listMinQ (l : List ℚ) : ℚ :=
  match l with
  | [] => 0
  | x :: xs => xs.foldl min x

/-- Models `np.mean` of a rational list (callers guard emptiness). -/
def listMeanQ (l : List ℚ) : ℚ := l.sum / l.length

noncomputable def listMaxR (l : List ℝ) : ℝ :=
  match l with
  | [] => 0
  | x :: xs => xs.foldl max x

noncomputable def listMeanR (l : List ℝ) : ℝ := l.sum / l.length

/-- The metrics dict of `_calculate_swing_metrics` (swing_analyzer.py:169-204):
wrist-speed entries present iff at least one speed sample exists, tempo per
`tempo_ratio`. -/
structure SwingMetrics where
  max_wrist_speed : Option ℝ
  avg_wrist_speed : Option ℝ
  tempo_ratio : Option ℚ

noncomputable def calculate_swing_metrics (swing_frames : List SwingFrame) : SwingMetrics :=
  let data := wrist_speed_data swing_frames
  let tr := tempo_ratio swing_frames
  { max_wrist_speed := if data = [] then none else some (listMaxR (wrist_speeds swing_frames))
    avg_wrist_speed := if data = [] then none else some (listMeanR (wrist_speeds swing_frames))
    tempo_ratio := tr }

/-! ## Whole-sequence angle statistics, `SwingAnalyzer._analyze_body_angles` -/

/-- The per-angle statistics sub-dict of swing_analyzer.py:221-226. -/
structure AngleStats where
  min : ℚ
  max : ℚ
  avg : ℚ
  range : ℚ
  deriving DecidableEq, Repr

/-- Dict-key accumulation in insertion order: a key is recorded at its first
occurrence (Python dict semantics for `all_angles`). -/
def insertKey (acc : List String) (n : String) : List String :=
  if n ∈ acc then acc else acc ++ [n]

/-- The keys of the `all_angles` dict of swing_analyzer.py:211-216, in first
occurrence order across frames. -/
def angle_names (swing_frames : List SwingFrame) : List String :=
  swing_frames.foldl (fun acc f => (f.angles.map Prod.fst).foldl insertKey acc) []

/-- The value list accumulated for one angle name across frames
(swing_analyzer.py:211-216). -/
def angle_values (swing_frames : List SwingFrame) (name : String) : List ℚ :=
  swing_frames.filterMap fun f => f.angles.lookup name

/-- Embeds `SwingAnalyzer._analyze_body_angles` (swing_analyzer.py:206-228):
statistics per angle name, emitted only when the value list is nonempty
(the `if values:` guard of line 220). -/
def analyze_body_angles (swing_frames : List SwingFrame) : List (String × AngleStats) :=
  (angle_names swing_frames).filterMap fun name =>
    let values := angle_values swing_frames name
    if values = [] then none
    else
      some (name,
        { min := listMinQ values
          max := listMaxQ values
          avg := listMeanQ values
          range := listMaxQ values - listMinQ values })

/-! ## Movement patterns, `SwingAnalyzer._analyze_movement_patterns` -/

/-- Hip mid-points of the frames carrying both hip landmarks
(swing_analyzer.py:235-241). -/
def hip_positions (swing_frames : List SwingFrame) : List (ℚ × ℚ) :=
  swing_frames.filterMap fun f =>
    match f.landmarks.lookup left_hip_key, f.landmarks.lookup right_hip_key with
    | some lh, some rh => some ((lh.x + rh.x) / 2, (lh.y + rh.y) / 2)
    | _, _ => none

/-- Squared frame-to-frame hip displacements; the source's movements are their
square roots (swing_analyzer.py:245-249). -/
def hip_movement_sq (swing_frames : List SwingFrame) : List ℚ :=
  ((hip_positions swing_frames).zip (hip_positions swing_frames).tail).map fun pq =>
    (pq.2.1 - pq.1.1) ^ 2 + (pq.2.2 - pq.1.2) ^ 2

noncomputable def hip_movements (swing_frames : List SwingFrame) : List ℝ :=
  (hip_movement_sq swing_frames).map fun q => Real.sqrt (q : ℝ)

/-- The `hip_stability` sub-dict of swing_analyzer.py:251-255. -/
structure HipStability (α : Type) where
  avg_movement : α
  max_movement : α
  total_movement : α

/-- Embeds `SwingAnalyzer._analyze_movement_patterns`
(swing_analyzer.py:230-257): the `hip_stability` entry is present exactly when
more than one frame carries both hip landmarks. -/
noncomputable def analyze_movement_patterns (swing_frames : List SwingFrame) :
    Option (HipStability ℝ) :=
  if 1 < (hip_positions swing_frames).length then
    some
      { avg_movement := listMeanR (hip_movements swing_frames)
        max_movement := listMaxR (hip_movements swing_frames)
        total_movement := (hip_movements swing_frames).sum }
  else none

/-! ## The aggregate analysis record, recommender and scorer -/

/-- The `swing_analysis` dict built by `_analyze_swing_sequence`
(swing_analyzer.py:111-120). -/
structure SwingSequenceAnalysis where
  swing_phases : Except String KeyPhases
  swing_metrics : SwingMetrics
  body_angles : List (String × AngleStats)
  movement_analysis : Option (HipStability ℝ)

noncomputable def analyze_swing_sequence (swing_frames : List SwingFrame) :
    SwingSequenceAnalysis :=
  { swing_phases := detect_swing_phases swing_frames
    swing_metrics := calculate_swing_metrics swing_frames
    body_angles := analyze_body_angles swing_frames
    movement_analysis := analyze_movement_patterns swing_frames }

def rec_too_quick : String :=
  "Your swing is too quick - try slowing down your backswing for better tempo"

def rec_too_slow : String :=
  "Your backswing is too slow - try to create more rhythm between backswing and downswing"

def rec_good_tempo : String := "Good swing tempo - maintain this rhythm"

def rec_spine : String :=
  "Try to maintain spine angle throughout the swing - excessive movement can affect consistency"

def rec_arm_sync : String :=
  "Work on arm synchronization - both arms should move more similarly throughout the swing"

def rec_hip : String :=
  "Focus on maintaining stable lower body - excessive hip movement can affect balance"

def rec_general_1 : String :=
  "Overall swing mechanics look good - continue practicing to maintain consistency"

def rec_general_2 : String :=
  "Consider working with a golf professional for advanced techniques"

/-- Embeds `SwingAnalyzer._generate_recommendations`
(swing_analyzer.py:259-303).  Each rule appends at most one string; the two
generic strings are appended only when no rule fired at all; there is no
lower-bound top-up to 3 and no cap in this function. -/
noncomputable def generate_recommendations (a : SwingSequenceAnalysis) : List String :=
  let tempoRecs : List String :=
    match a.swing_metrics.tempo_ratio with
    | some tempo =>
      if tempo < 2 then [rec_too_quick]
      else if 4 < tempo then [rec_too_slow]
      else [rec_good_tempo]
    | none => []
  let spineRecs : List String :=
    match a.body_angles.lookup spine_tilt_key with
    | some st => if 20 < st.range then [rec_spine] else []
    | none => []
  let armRecs : List String :=
    match a.body_angles.lookup left_arm_key, a.body_angles.lookup right_arm_key with
    | some la, some ra => if 15 < |la.range - ra.range| then [rec_arm_sync] else []
    | _, _ => []
  let hipRecs : List String :=
    match a.movement_analysis with
    | some hs => if (0.1 : ℝ) < hs.total_movement then [rec_hip] else []
    | none => []
  let recs := tempoRecs ++ spineRecs ++ armRecs ++ hipRecs
  if recs.length = 0 then [rec_general_1, rec_general_2] else recs

/-- Embeds `SwingAnalyzer._calculate_overall_score`
(swing_analyzer.py:305-344): base 70, tempo adjustment, angle-consistency net
capped above at 15, hip-stability adjustment, final clamp to `[0, 100]`. -/
noncomputable def calculate_overall_score (a : SwingSequenceAnalysis) : ℤ :=
  let tempoAdj : ℤ :=
    match a.swing_metrics.tempo_ratio with
    | some tempo =>
      if 2.5 ≤ tempo ∧ tempo ≤ 3.5 then 10
      else if 2 ≤ tempo ∧ tempo ≤ 4 then 5
      else -5
    | none => 0
  let angle_consistency_score : ℤ :=
    a.body_angles.foldl
      (fun acc nd =>
        if nd.2.range < 15 then acc + 2
        else if 30 < nd.2.range then acc - 2
        else acc) 0
  let stabilityAdj : ℤ :=
    match a.movement_analysis with
    | some hs =>
      if hs.total_movement < (0.05 : ℝ) then 5
      else if (0.15 : ℝ) < hs.total_movement then -10
      else 0
    | none => 0
  max 0 (min 100 (70 + tempoAdj + min angle_consistency_score 15 + stabilityAdj))

/-- The analysis-relevant fields of the dict returned by
`SwingAnalyzer.analyze_video` on success (swing_analyzer.py:74-92); the
video-file metadata, annotated-video URL and key-frame URLs are media I/O and
are not modelled. -/
structure SwingAnalysisResult where
  swing_analysis : SwingSequenceAnalysis
  recommendations : List String
  overall_score : ℤ

/-- Outcome of the entry point: the raised `ValueError` (modelled `.failure`)
or the result dict. -/
inductive AnalyzeResult where
  | failure (msg : String)
  | ok (r : SwingAnalysisResult)

def insufficient_pose_msg : String :=
  "Insufficient pose data detected in video - please ensure golfer is clearly visible"

/-- Embeds the analysis core of `SwingAnalyzer.analyze_video`
(swing_analyzer.py:15-95), taking the surviving frame sequence after decoding
and pose detection.  The only hard failure of the entry point is
`len(swing_frames) < 5` (line 58); otherwise the full result dict is built. -/
noncomputable def analyze_video (swing_frames : List SwingFrame) : AnalyzeResult :=
  if swing_frames.length < 5 then .failure insufficient_pose_msg
  else
    let a := analyze_swing_sequence swing_frames
    .ok
      { swing_analysis := a
        recommendations := generate_recommendations a
        overall_score := calculate_overall_score a }

/-- The phase slot of an analysis outcome: `none` when the entry point failed,
otherwise the (possibly error-marked) phase dict of the result. -/
def result_phases (r : AnalyzeResult) : Option (Except String KeyPhases) :=
  match r with
  | .failure _ => none
  | .ok res => some res.swing_analysis.swing_phases

/-! ## Server-side segmentation and per-phase metrics (`server.py`) -/

def spine_angle_key : String := "spine_angle"

def left_arm_angle_key : String := "left_arm_angle"

def right_arm_angle_key : String := "right_arm_angle"

/-- One entry of the server's `frame_data` list as consumed by
`analyze_swing_phases` and `extract_phase_metrics`: original video frame
index, timestamp, landmark and angle dicts (server.py:109-137 produces the
per-frame dicts; the processing loop adds `frame_index` and `timestamp`). -/
structure ServerFrame where
  frame_index : ℕ
  timestamp : ℚ
  landmarks : List (String × ServerLandmark)
  angles : List (String × ℚ)
  deriving DecidableEq, Repr

/-- Population variance; `np.std l = Real.sqrt (varQ l)` (callers guard
emptiness). -/
def varQ (l : List ℚ) : ℚ :=
  (l.map fun x => (x - listMeanQ l) ^ 2).sum / l.length

noncomputable def npStd (l : List ℚ) : ℝ := Real.sqrt (varQ l)

/-- The phase `key_metrics` sub-dict built by `extract_phase_metrics`
(server.py:730-754). -/
structure PhaseMetrics where
  avg_spine_angle : Option ℚ
  spine_angle_consistency : Option ℝ
  avg_left_arm_angle : Option ℚ
  avg_right_arm_angle : Option ℚ

/-- The `phase_frames` local of `extract_phase_metrics` (server.py:732):
frames whose original video frame index lies in `[start_frame, end_frame]`. -/
def phase_frames (frame_data : List ServerFrame) (start_frame end_frame : ℕ) :
    List ServerFrame :=
  frame_data.filter fun f => decide (start_frame ≤ f.frame_index ∧ f.frame_index ≤ end_frame)

/-- The per-key angle sample lists of server.py:740-747 (`spine_angles`,
`left_arm_angles`, `right_arm_angles`). -/
def phase_angle_samples (frame_data : List ServerFrame) (start_frame end_frame : ℕ)
    (key : String) : List ℚ :=
  (phase_frames frame_data start_frame end_frame).filterMap fun f => f.angles.lookup key

/-- Embeds `extract_phase_metrics` (server.py:730-754): frames filtered by
`start_frame ≤ frame_index ≤ end_frame` on the original video frame index;
each statistic is emitted only when its angle sample list is nonempty, and an
empty phase yields the empty dict. -/
noncomputable def extract_phase_metrics (frame_data : List ServerFrame)
    (start_frame end_frame : ℕ) : PhaseMetrics :=
  if phase_frames frame_data start_frame end_frame = [] then ⟨none, none, none, none⟩
  else
    let spine_angles := phase_angle_samples frame_data start_frame end_frame spine_angle_key
    let left_arm_angles :=
      phase_angle_samples frame_data start_frame end_frame left_arm_angle_key
    let right_arm_angles :=
      phase_angle_samples frame_data start_frame end_frame right_arm_angle_key
    { avg_spine_angle := if spine_angles = [] then none else some (listMeanQ spine_angles)
      spine_angle_consistency := if spine_angles = [] then none else some (npStd spine_angles)
      avg_left_arm_angle :=
        if left_arm_angles = [] then none else some (listMeanQ left_arm_angles)
      avg_right_arm_angle :=
        if right_arm_angles = [] then none else some (listMeanQ right_arm_angles) }

/-- Right-wrist observations collected by the server segmenter
(server.py:672-680): `(frame, timestamp, x, y)` per frame carrying
`right_wrist`. -/
def server_wrist_positions (frame_data : List ServerFrame) : List (ℕ × ℚ × ℤ × ℤ) :=
  frame_data.filterMap fun f =>
    match f.landmarks.lookup right_wrist_key with
    | some w => some (f.frame_index, f.timestamp, w.x, w.y)
    | none => none

/-- One phase record of server.py:690-726. -/
structure ServerPhase where
  phase_name : String
  start_frame : ℕ
  end_frame : ℕ
  description : String
  key_metrics : PhaseMetrics

def phase_address_name : String := "address"

def phase_backswing_name : String := "backswing"

def phase_top_name : String := "top_backswing"

def phase_downswing_name : String := "downswing"

def phase_follow_name : String := "follow_through"

def phase_address_desc : String := "Setup and address position"

def phase_backswing_desc : String := "Backswing to top position"

def phase_top_desc : String := "Top of backswing transition"

def phase_downswing_desc : String := "Downswing to impact"

def phase_follow_desc : String := "Follow-through and finish"

/-- Models `int(total_frames * fraction)` for the boundary fractions 0.15, 0.45,
0.55, 0.75 of server.py:690-726, as the exact `⌊total_frames · num / 100⌋`.
For every realistic `total_frames` (anything below `10^13`) the IEEE product
truncates to the same integer: `num·M/100` is either an exact multiple-of-20
integer (recovered exactly after rounding) or at least `1/20` away from any
integer, while the product's rounding error stays below `M · 2^-50`. -/
def boundary (total_frames num : ℕ) : ℕ := total_frames * num / 100

/-- Embeds `analyze_swing_phases` (server.py:664-728): the empty list for
empty input or fewer than 10 right-wrist observations, else the fixed
five-phase proportional split of `total_frames = len(wrist_positions)`. -/
noncomputable def analyze_swing_phases (frame_data : List ServerFrame) : List ServerPhase :=
  if frame_data = [] then []
  else
    let wps := server_wrist_positions frame_data
    if wps.length < 10 then []
    else
      let total_frames := wps.length
      [ { phase_name := phase_address_name
          start_frame := 0
          end_frame := boundary total_frames 15
          description := phase_address_desc
          key_metrics := extract_phase_metrics frame_data 0 (boundary total_frames 15) },
        { phase_name := phase_backswing_name
          start_frame := boundary total_frames 15
          end_frame := boundary total_frames 45
          description := phase_backswing_desc
          key_metrics :=
            extract_phase_metrics frame_data (boundary total_frames 15) (boundary total_frames 45) },
        { phase_name := phase_top_name
          start_frame := boundary total_frames 45
          end_frame := boundary total_frames 55
          description := phase_top_desc
          key_metrics :=
            extract_phase_metrics frame_data (boundary total_frames 45) (boundary total_frames 55) },
        { phase_name := phase_downswing_name
          start_frame := boundary total_frames 55
          end_frame := boundary total_frames 75
          description := phase_downswing_desc
          key_metrics :=
            extract_phase_metrics frame_data (boundary total_frames 55) (boundary total_frames 75) },
        { phase_name := phase_follow_name
          start_frame := boundary total_frames 75
          end_frame := total_frames - 1
          description := phase_follow_desc
          key_metrics :=
            extract_phase_metrics frame_data (boundary total_frames 75) (total_frames - 1) } ]

/-! ## Fast analysis module (`fast_analysis.py`) -/

/-- The metric dict produced by `_generate_enhanced_metrics` and consumed by
`FastSwingAnalyzer._generate_recommendations` (fast_analysis.py:126-134,
194-202); `Option` models possible key absence, read through the source's
`.get` defaults. -/
structure FastMetrics where
  club_path_deg : Option ℚ
  face_to_path_deg : Option ℚ
  attack_angle_deg : Option ℚ
  tempo_ratio : Option ℚ
  shoulder_rotation_deg : Option ℚ
  hip_rotation_deg : Option ℚ
  swing_speed_mph : Option ℚ
  deriving DecidableEq, Repr

def fm_path_over : String :=
  "Work on swing path - coming over the top. Practice inside-out drills."

def fm_path_inside : String :=
  "Swing path too inside - focus on proper takeaway and plane."

def fm_path_good : String := "Excellent swing path! Maintain this consistency."

def fm_face_open : String := "Club face open at impact - work on grip and release."

def fm_face_closed : String := "Club face closed at impact - check grip strength."

def fm_attack_steep : String := "Too steep - practice hitting up on the ball more."

def fm_attack_shallow : String := "Angle of attack too shallow - work on descending blow."

def fm_attack_good : String := "Good attack angle for solid contact."

def fm_tempo_quick : String := "Backswing too quick - slow down for better timing."

def fm_tempo_slow : String := "Backswing too slow - add some rhythm to downswing."

def fm_tempo_good : String := "Great tempo ratio - maintain this timing."

def fm_speed_low : String := "Work on generating more clubhead speed through rotation."

def fm_speed_high : String := "Great speed! Focus on control and consistency."

def pool_1 : String := "Practice with alignment sticks for better setup"

def pool_2 : String := "Record swings regularly to track progress"

def pool_3 : String := "Work on balance throughout the swing"

def pool_4 : String := "Focus on smooth tempo and rhythm"

def pool_5 : String := "Practice impact drills for solid contact"

/-- The fixed generic-advice pool of fast_analysis.py:244-250, in source
order. -/
def additional_pool : List String := [pool_1, pool_2, pool_3, pool_4, pool_5]

/-- Club-path rule (fast_analysis.py:204-211), on `get("club_path_deg", 0)`. -/
def club_path_recs (m : FastMetrics) : List String :=
  let club_path := m.club_path_deg.getD 0
  if 4 < |club_path| then
    if 0 < club_path then [fm_path_over] else [fm_path_inside]
  else if |club_path| < 1 then [fm_path_good]
  else []

/-- Face-to-path rule (fast_analysis.py:213-218). -/
def face_to_path_recs (m : FastMetrics) : List String :=
  let face_to_path := m.face_to_path_deg.getD 0
  if 3 < |face_to_path| then
    if 0 < face_to_path then [fm_face_open] else [fm_face_closed]
  else []

/-- Attack-angle rule (fast_analysis.py:220-226), default −4; always fires. -/
def attack_angle_recs (m : FastMetrics) : List String :=
  let attack_angle := m.attack_angle_deg.getD (-4)
  if attack_angle < -6 then [fm_attack_steep]
  else if -2 < attack_angle then [fm_attack_shallow]
  else [fm_attack_good]

/-- Tempo rule (fast_analysis.py:228-234), default 3.0; always fires. -/
def fast_tempo_recs (m : FastMetrics) : List String :=
  let tempo := m.tempo_ratio.getD 3
  if tempo < 2.5 then [fm_tempo_quick]
  else if 3.5 < tempo then [fm_tempo_slow]
  else [fm_tempo_good]

/-- Swing-speed rule (fast_analysis.py:236-240), default 90. -/
def swing_speed_recs (m : FastMetrics) : List String :=
  let swing_speed := m.swing_speed_mph.getD 90
  if swing_speed < 85 then [fm_speed_low]
  else if 105 < swing_speed then [fm_speed_high]
  else []

/-- The recommendation list before the generic top-up, in the evaluation
order of fast_analysis.py:204-240. -/
def fast_rule_recs (m : FastMetrics) : List String :=
  club_path_recs m ++ face_to_path_recs m ++ attack_angle_recs m
    ++ fast_tempo_recs m ++ swing_speed_recs m

/-- The top-up loop of fast_analysis.py:251-255: append each generic entry
not already present, breaking once the list has reached 5 entries (the length
test runs after the append). -/
def topUp (recs : List String) (pool : List String) : List String :=
  match pool with
  | [] => recs
  | r :: rest =>
    if r ∈ recs then topUp recs rest
    else if 5 ≤ (recs ++ [r]).length then recs ++ [r]
    else topUp (recs ++ [r]) rest

/-- Embeds `FastSwingAnalyzer._generate_recommendations`
(fast_analysis.py:194-257): threshold rules, generic top-up when fewer than 3
rules fired, and the final `[:6]` cap. -/
def fast_generate_recommendations (m : FastMetrics) : List String :=
  let recs := fast_rule_recs m
  let topped := if recs.length < 3 then topUp recs additional_pool else recs
  topped.take 6

/-- Video-level measurements consumed by `_generate_enhanced_metrics`
(fast_analysis.py:109-113), read through the `.get` defaults 50 and 1.0. -/
structure VideoMetrics where
  motion_intensity : Option ℚ
  duration : Option ℚ
  deriving DecidableEq, Repr

/-- The six `random.uniform` draws consumed, in source order, by
`_generate_enhanced_metrics` — an explicit model of the hidden random state
the source reads from the global `random` module. -/
structure RandomDraws where
  club_path_draw : ℚ
  face_to_path_draw : ℚ
  attack_angle_draw : ℚ
  tempo_draw : ℚ
  shoulder_draw : ℚ
  speed_draw : ℚ
  deriving DecidableEq, Repr

/-- The admissibility bounds of the six `random.uniform(a, b)` calls of
fast_analysis.py:116-124. -/
def validDraws (d : RandomDraws) : Prop :=
  (-3 ≤ d.club_path_draw ∧ d.club_path_draw ≤ 3) ∧
  (-4 ≤ d.face_to_path_draw ∧ d.face_to_path_draw ≤ 2) ∧
  (-8 ≤ d.attack_angle_draw ∧ d.attack_angle_draw ≤ -2) ∧
  (0 ≤ d.tempo_draw ∧ d.tempo_draw ≤ 0.3) ∧
  (-5 ≤ d.shoulder_draw ∧ d.shoulder_draw ≤ 10) ∧
  (-5 ≤ d.speed_draw ∧ d.speed_draw ≤ 15)

instance (d : RandomDraws) : Decidable (validDraws d) := by
  unfold validDraws; infer_instance

/-- Python `round(x, n)` as exact rational rounding to `n` decimal digits;
the source's banker's tie-breaking differs only on exact ties, which no
statement below goes near. -/
def roundTo (n : ℕ) (x : ℚ) : ℚ := (round (x * 10 ^ n) : ℤ) / 10 ^ n

/-- Embeds `FastSwingAnalyzer._generate_enhanced_metrics`
(fast_analysis.py:109-134), with the random draws passed explicitly instead
of read from the global random number generator. -/
def generate_enhanced_metrics (vm : VideoMetrics) (d : RandomDraws) : FastMetrics :=
  let motion_factor := min 1 (vm.motion_intensity.getD 50 / 100)
  let duration := vm.duration.getD 1
  let base_club_path := d.club_path_draw * (1 + motion_factor * 0.3)
  let base_face_to_path := d.face_to_path_draw * (1 + motion_factor * 0.2)
  let base_attack_angle := d.attack_angle_draw
  let base_tempo := 2.5 + min duration 3 / 3 * 1 + d.tempo_draw
  let base_shoulder_rotation := 40 + motion_factor * 25 + d.shoulder_draw
  let base_swing_speed := 85 + motion_factor * 20 + d.speed_draw
  { club_path_deg := some (roundTo 1 base_club_path)
    face_to_path_deg := some (roundTo 1 base_face_to_path)
    attack_angle_deg := some (roundTo 1 base_attack_angle)
    tempo_ratio := some (roundTo 2 base_tempo)
    shoulder_rotation_deg := some (roundTo 1 base_shoulder_rotation)
    hip_rotation_deg := some (roundTo 1 (base_shoulder_rotation * 0.7))
    swing_speed_mph := some (roundTo 1 base_swing_speed) }

/-! ## Candidate string pools (for de-duplication reasoning) -/

def club_candidates : List String := [fm_path_over, fm_path_inside, fm_path_good]

def face_candidates : List String := [fm_face_open, fm_face_closed]

def attack_candidates : List String := [fm_attack_steep, fm_attack_shallow, fm_attack_good]

def tempo_candidates : List String := [fm_tempo_quick, fm_tempo_slow, fm_tempo_good]

def speed_candidates : List String := [fm_speed_low, fm_speed_high]

/-- Every string any threshold rule can emit. -/
def rule_candidates : List String :=
  club_candidates ++ face_candidates ++ attack_candidates ++ tempo_candidates ++ speed_candidates

/-! ## Concrete example inputs used by witnesses and counterexamples -/

/-- A surviving sequence of `n` frames with no detected landmarks or angles. -/
def emptyFrames (n : ℕ) : List SwingFrame :=
  (List.range n).map fun i => ⟨i, (i : ℚ), [], []⟩

def exFrames3 : List SwingFrame := emptyFrames 3

def exFrames5 : List SwingFrame := emptyFrames 5

def exFrames7 : List SwingFrame := emptyFrames 7

def exFrames10 : List SwingFrame := emptyFrames 10

/-- One frame carrying a single tracked angle. -/
def exFrames9 : List SwingFrame := [⟨0, 0, [], [(spine_tilt_key, 100)]⟩]

/-- Ten server frames, each carrying a `right_wrist` landmark. -/
def exServerFrames10 : List ServerFrame :=
  (List.range 10).map fun i => ⟨i, (i : ℚ), [(right_wrist_key, ⟨0, 0, 0, 1⟩)], []⟩

/-- An aggregate record whose only usable metric is a healthy tempo ratio. -/
def exSwingTempoOnly : SwingSequenceAnalysis :=
  { swing_phases := Except.error insufficient_frames_msg
    swing_metrics := { max_wrist_speed := none, avg_wrist_speed := none, tempo_ratio := some 3 }
    body_angles := []
    movement_analysis := none }

/-- The video-measurement record with the source's default values
(`motion_intensity = 50`, `duration = 1.0`). -/
def vmDefault : VideoMetrics := { motion_intensity := some 50, duration := some 1 }

/-- Two admissible states of the random number generator. -/
def drawsA : RandomDraws :=
  { club_path_draw := -2, face_to_path_draw := 0, attack_angle_draw := -4
    tempo_draw := 0, shoulder_draw := 0, speed_draw := 0 }

def drawsB : RandomDraws :=
  { club_path_draw := 2, face_to_path_draw := 0, attack_angle_draw := -4
    tempo_draw := 0, shoulder_draw := 0, speed_draw := 0 }

/-- The scoring rule table exactly as the specification words it (§4.5):
base 70; tempo bonus +10 when `tempo_ratio` is present and in `[2.5, 3.5]`,
+5 when present and in `[2.0, 4.0]` but outside the first range, −5 when
present and outside `[2.0, 4.0]`, 0 when absent; an angle-consistency net of
+2 per tracked angle with range < 15 minus 2 per angle with range > 30, the
net capped at +15; stability +5 when total hip movement is present and
< 0.05, −10 when > 0.15, else 0; the sum clamped to `[0, 100]`.  This
definition follows the specification's words and is compared against the
source-derived `calculate_overall_score`. -/
noncomputable def spec_overall_score (a : SwingSequenceAnalysis) : ℤ :=
  let tempoBonus : ℤ :=
    match a.swing_metrics.tempo_ratio with
    | some tempo =>
      if 2.5 ≤ tempo ∧ tempo ≤ 3.5 then 10
      else if (2 ≤ tempo ∧ tempo ≤ 4) ∧ ¬(2.5 ≤ tempo ∧ tempo ≤ 3.5) then 5
      else -5
    | none => 0
  let net : ℤ :=
    2 * ((a.body_angles.countP fun nd => decide (nd.2.range < 15) : ℕ) : ℤ) -
      2 * ((a.body_angles.countP fun nd => decide (30 < nd.2.range) : ℕ) : ℤ)
  let stability : ℤ :=
    match a.movement_analysis with
    | some hs =>
      if hs.total_movement < (0.05 : ℝ) then 5
      else if (0.15 : ℝ) < hs.total_movement then -10
      else 0
    | none => 0
  max 0 (min 100 (70 + tempoBonus + min net 15 + stability))

/-! # Claim theorems -/

/-- C10: the joint-angle computation of `calculate_angle` reads only the `x`
and `y` coordinates of the three landmarks; two landmark triples that differ
only in their `z` coordinates produce the same result. -/
theorem c10_angle_ignores_z (p1 p2 p3 : PoseLandmark) (z1 z2 z3 : ℚ) :
    calculate_angle ⟨p1.x, p1.y, z1, p1.visibility⟩ ⟨p2.x, p2.y, z2, p2.visibility⟩
        ⟨p3.x, p3.y, z3, p3.visibility⟩ =
      calculate_angle p1 p2 p3 := rfl

/-- C4 counterexample: the claim says `calculate_angle` returns exactly `0.0`
on a zero-length input vector; at this concrete input (first vector `a − b`
zero) the unguarded `0.0/0.0` yields NaN — modelled `none` — which is not the
value `0.0`. -/
theorem c4_counterexample :
    calculate_angle ⟨0, 0, 0, 1⟩ ⟨0, 0, 5, 1⟩ ⟨1, 2, 3, 1⟩ = none ∧
      calculate_angle ⟨0, 0, 0, 1⟩ ⟨0, 0, 5, 1⟩ ⟨1, 2, 3, 1⟩ ≠ some 0 := by
  constructor
  · simp [calculate_angle, vecXY]
  · simp [calculate_angle, vecXY]

/-- C4 amended: with a zero-length input vector, `pose_analyzer.calculate_angle`
returns NaN (the propagated `0.0/0.0`, modelled `none`) and does not raise,
while the server's `calculate_joint_angle` is the variant that carries the
explicit guard and returns exactly `0.0`. -/
theorem c4_amended (p1 p2 p3 : PoseLandmark) (q1 q2 q3 : ServerLandmark)
    (hp : vecXY p1 p2 = (0, 0) ∨ vecXY p3 p2 = (0, 0))
    (hq : vecS q1 q2 = (0, 0) ∨ vecS q3 q2 = (0, 0)) :
    calculate_angle p1 p2 p3 = none ∧ calculate_joint_angle q1 q2 q3 = 0 := by
  constructor
  · simp only [calculate_angle]
    rw [if_pos hp]
  · simp only [calculate_joint_angle]
    rw [if_pos hq]

/-- C4 witness: the amended statement applied at concrete degenerate inputs. -/
theorem c4_amended_witness :
    calculate_angle ⟨1, 2, 9, 1⟩ ⟨1, 2, 4, 0⟩ ⟨5, 6, 0, 1⟩ = none ∧
      calculate_joint_angle ⟨7, 8, 0, 1⟩ ⟨7, 8, 1, 1⟩ ⟨2, 3, 0, 1⟩ = 0 :=
  c4_amended _ _ _ _ _ _ (Or.inl (by simp [vecXY])) (Or.inl (by simp [vecS]))

/-- C7: the `tempo_ratio` metric is present iff a downswing duration was
detected (the phase keys exist) and that duration is strictly positive; a
zero or negative duration, or no detected phases, omits the entry. -/
theorem c7_tempo_presence (swing_frames : List SwingFrame) :
    (tempo_ratio swing_frames).isSome ↔
      ∃ d, downswing_time swing_frames = some d ∧ 0 < d := by
  unfold tempo_ratio downswing_time
  cases h : detect_swing_phases swing_frames with
  | error e => simp
  | ok p =>
    by_cases hd : 0 < p.impact.timestamp - p.top_of_backswing.timestamp
    · simp [hd]
    · simp [hd]

/-- C6: the fast-analysis metric generator is not a function of its video
input — two admissible states of the random number generator give different
metric dicts for the same input, so running the analysis twice on the same
input need not produce identical results. -/
theorem c6_code_bug :
    ∃ d1 d2 : RandomDraws, validDraws d1 ∧ validDraws d2 ∧
      generate_enhanced_metrics vmDefault d1 ≠ generate_enhanced_metrics vmDefault d2 := by
  refine ⟨drawsA, drawsB, by norm_num [validDraws, drawsA], by norm_num [validDraws, drawsB], ?_⟩
  intro h
  have hcp := congrArg FastMetrics.club_path_deg h
  simp only [generate_enhanced_metrics, vmDefault, drawsA, drawsB, roundTo,
    Option.getD_some] at hcp
  rw [round_eq, round_eq] at hcp
  norm_num at hcp

/-- C1 counterexample: a surviving sequence of 5 frames (so `N < 10`) does
not make the entry point fail — `analyze_video` returns a success record, and
its phase slot holds the error marker rather than nothing: a best-effort
partial result is substituted. -/
theorem c1_counterexample :
    result_phases (analyze_video exFrames5) = some (Except.error insufficient_frames_msg) := by
  have h5 : ¬ exFrames5.length < 5 := by norm_num [exFrames5, emptyFrames]
  have h10 : exFrames5.length < 10 := by norm_num [exFrames5, emptyFrames]
  simp [analyze_video, h5, result_phases, analyze_swing_sequence, detect_swing_phases, h10]

/-- C1 amended: the entry point's only hard failure is `N < 5` (the
"Insufficient pose data" ValueError); for `5 ≤ N < 10` it succeeds, and the
phase detector returns the explicit "Insufficient frames" error marker in
place of a phase list. -/
theorem c1_amended (swing_frames : List SwingFrame) (h10 : swing_frames.length < 10) :
    (swing_frames.length < 5 → analyze_video swing_frames = .failure insufficient_pose_msg) ∧
    (5 ≤ swing_frames.length →
      result_phases (analyze_video swing_frames) =
        some (Except.error insufficient_frames_msg)) := by
  constructor
  · intro h5
    simp [analyze_video, h5]
  · intro h5
    have h5n : ¬ swing_frames.length < 5 := by omega
    simp [analyze_video, h5n, result_phases, analyze_swing_sequence, detect_swing_phases, h10]

/-- C1 witness: the amended statement applied at concrete 3- and 7-frame
sequences. -/
theorem c1_amended_witness :
    analyze_video exFrames3 = .failure insufficient_pose_msg ∧
      result_phases (analyze_video exFrames7) = some (Except.error insufficient_frames_msg) :=
  ⟨(c1_amended exFrames3 (by norm_num [exFrames3, emptyFrames])).1
      (by norm_num [exFrames3, emptyFrames]),
   (c1_amended exFrames7 (by norm_num [exFrames7, emptyFrames])).2
      (by norm_num [exFrames7, emptyFrames])⟩

/-- Frames with no landmarks contribute no wrist observations. -/
theorem wrist_positions_emptyFrames (n : ℕ) : wrist_positions (emptyFrames n) = [] := by
  simp [wrist_positions, emptyFrames, List.filterMap_map, Function.comp, List.lookup]

/-- C8 counterexample: a 10-frame sequence with no wrist landmarks does not
fall back to a proportional split — `_detect_swing_phases` returns an explicit
error marker, refuting "insufficient wrist tracking never produces an
error". -/
theorem c8_counterexample :
    detect_swing_phases exFrames10 = .error insufficient_wrist_msg := by
  have h : ¬ exFrames10.length < 10 := by norm_num [exFrames10, emptyFrames]
  have hw : (wrist_positions exFrames10).length < 5 := by
    rw [exFrames10, wrist_positions_emptyFrames]
    norm_num
  simp [detect_swing_phases, h, hw]

/-- C8 amended: a sequence of at least 10 frames of which fewer than 5 carry
a wrist landmark makes the trajectory segmenter return the explicit
"Insufficient wrist tracking data" error marker (not a proportional fallback,
not an exception). -/
theorem c8_amended (swing_frames : List SwingFrame) (h10 : 10 ≤ swing_frames.length)
    (hw : (wrist_positions swing_frames).length < 5) :
    detect_swing_phases swing_frames = .error insufficient_wrist_msg := by
  have h : ¬ swing_frames.length < 10 := by omega
  simp [detect_swing_phases, h, hw]

/-- C8 witness: the amended statement applied at a concrete wristless
10-frame sequence. -/
theorem c8_amended_witness :
    detect_swing_phases exFrames10 = .error insufficient_wrist_msg :=
  c8_amended exFrames10 (by norm_num [exFrames10, emptyFrames])
    (by rw [exFrames10, wrist_positions_emptyFrames]; norm_num)

/-- With at least 10 wrist observations the server segmenter emits exactly
the five proportional-boundary phases. -/
theorem analyze_swing_phases_boundaries (frame_data : List ServerFrame)
    (h : 10 ≤ (server_wrist_positions frame_data).length) :
    (analyze_swing_phases frame_data).map (fun p => (p.start_frame, p.end_frame)) =
      [(0, boundary (server_wrist_positions frame_data).length 15),
       (boundary (server_wrist_positions frame_data).length 15,
        boundary (server_wrist_positions frame_data).length 45),
       (boundary (server_wrist_positions frame_data).length 45,
        boundary (server_wrist_positions frame_data).length 55),
       (boundary (server_wrist_positions frame_data).length 55,
        boundary (server_wrist_positions frame_data).length 75),
       (boundary (server_wrist_positions frame_data).length 75,
        (server_wrist_positions frame_data).length - 1)] := by
  have hne : frame_data ≠ [] := by
    rintro rfl
    simp [server_wrist_positions] at h
  have hge : ¬ (server_wrist_positions frame_data).length < 10 := by omega
  simp [analyze_swing_phases, hne, hge]

/-- Every frame of `exServerFrames10` carries a right wrist. -/
theorem exServerFrames10_wrist_count : (server_wrist_positions exServerFrames10).length = 10 := by
  decide

/-- C2 counterexample: on a 10-wrist-frame input the server phases are
`[(0,1),(1,4),(4,5),(5,7),(7,9)]` — consecutive phases share their boundary
frame, so the claimed relation `start of phase i+1 = end of phase i + 1`
fails. -/
theorem c2_counterexample :
    ((analyze_swing_phases exServerFrames10).map fun p => (p.start_frame, p.end_frame)) =
        [(0, 1), (1, 4), (4, 5), (5, 7), (7, 9)] ∧
      ¬ List.Chain' (fun p q => q.start_frame = p.end_frame + 1)
          (analyze_swing_phases exServerFrames10) := by
  have hb := analyze_swing_phases_boundaries exServerFrames10
    (by rw [exServerFrames10_wrist_count])
  rw [exServerFrames10_wrist_count] at hb
  norm_num [boundary] at hb
  refine ⟨hb, ?_⟩
  intro hch
  have hc2 : List.Chain' (fun a b : ℕ × ℕ => b.1 = a.2 + 1)
      ((analyze_swing_phases exServerFrames10).map fun p => (p.start_frame, p.end_frame)) :=
    (List.chain'_map _).mpr hch
  rw [hb] at hc2
  norm_num [List.chain'_cons] at hc2

/-- C2 amended: for every input the server segmenter accepts (at least 10
wrist observations, `M` of them), the five phases are ordered with
monotonically non-decreasing boundaries, the first starts at 0, the last ends
at `M − 1`, and the ranges jointly cover `[0, M−1]`; but consecutive phases
share their boundary frame — the start of phase `i+1` equals the end of phase
`i` (a one-frame overlap), not `end + 1`. -/
theorem c2_amended (frame_data : List ServerFrame)
    (h : 10 ≤ (server_wrist_positions frame_data).length) :
    (∃ b1 b2 b3 b4 : ℕ,
        b1 ≤ b2 ∧ b2 ≤ b3 ∧ b3 ≤ b4 ∧ b4 < (server_wrist_positions frame_data).length ∧
        (analyze_swing_phases frame_data).map (fun p => (p.start_frame, p.end_frame)) =
          [(0, b1), (b1, b2), (b2, b3), (b3, b4),
           (b4, (server_wrist_positions frame_data).length - 1)]) ∧
    (∀ k < (server_wrist_positions frame_data).length,
        ∃ p ∈ analyze_swing_phases frame_data, p.start_frame ≤ k ∧ k ≤ p.end_frame) := by
  have hb := analyze_swing_phases_boundaries frame_data h
  set M := (server_wrist_positions frame_data).length with hM
  have hM0 : 0 < M := by omega
  have h15_45 : boundary M 15 ≤ boundary M 45 := Nat.div_le_div_right (by omega)
  have h45_55 : boundary M 45 ≤ boundary M 55 := Nat.div_le_div_right (by omega)
  have h55_75 : boundary M 55 ≤ boundary M 75 := Nat.div_le_div_right (by omega)
  have h75 : boundary M 75 < M := Nat.div_lt_of_lt_mul (by omega)
  have get_p : ∀ pr ∈ [(0, boundary M 15), (boundary M 15, boundary M 45),
      (boundary M 45, boundary M 55), (boundary M 55, boundary M 75),
      (boundary M 75, M - 1)],
      ∃ p ∈ analyze_swing_phases frame_data, (p.start_frame, p.end_frame) = pr := by
    intro pr hpr
    have hm : pr ∈ (analyze_swing_phases frame_data).map
        (fun p => (p.start_frame, p.end_frame)) := by
      rw [hb]; exact hpr
    obtain ⟨p, hp, hfp⟩ := List.mem_map.mp hm
    exact ⟨p, hp, hfp⟩
  refine ⟨⟨boundary M 15, boundary M 45, boundary M 55, boundary M 75,
    h15_45, h45_55, h55_75, h75, hb⟩, ?_⟩
  intro k hk
  rcases le_or_lt k (boundary M 15) with h1 | h1
  · obtain ⟨p, hp, hfp⟩ := get_p (0, boundary M 15) (by simp)
    simp only [Prod.ext_iff] at hfp
    exact ⟨p, hp, by omega, by omega⟩
  · rcases le_or_lt k (boundary M 45) with h2 | h2
    · obtain ⟨p, hp, hfp⟩ := get_p (boundary M 15, boundary M 45) (by simp)
      simp only [Prod.ext_iff] at hfp
      exact ⟨p, hp, by omega, by omega⟩
    · rcases le_or_lt k (boundary M 55) with h3 | h3
      · obtain ⟨p, hp, hfp⟩ := get_p (boundary M 45, boundary M 55) (by simp)
        simp only [Prod.ext_iff] at hfp
        exact ⟨p, hp, by omega, by omega⟩
      · rcases le_or_lt k (boundary M 75) with h4 | h4
        · obtain ⟨p, hp, hfp⟩ := get_p (boundary M 55, boundary M 75) (by simp)
          simp only [Prod.ext_iff] at hfp
          exact ⟨p, hp, by omega, by omega⟩
        · obtain ⟨p, hp, hfp⟩ := get_p (boundary M 75, M - 1) (by simp)
          simp only [Prod.ext_iff] at hfp
          exact ⟨p, hp, by omega, by omega⟩

/-- C2 witness: the amended statement applied at the concrete 10-wrist-frame
input, covering frame 6. -/
theorem c2_amended_witness :
    ∃ p ∈ analyze_swing_phases exServerFrames10, p.start_frame ≤ 6 ∧ 6 ≤ p.end_frame :=
  (c2_amended exServerFrames10 (by rw [exServerFrames10_wrist_count])).2 6
    (by rw [exServerFrames10_wrist_count]; norm_num)

/-- The angle-consistency fold of the scorer counts +2 per angle of range
below 15 and −2 per angle of range above 30. -/
theorem angle_consistency_foldl (l : List (String × AngleStats)) (init : ℤ) :
    l.foldl
        (fun acc nd =>
          if nd.2.range < 15 then acc + 2
          else if 30 < nd.2.range then acc - 2
          else acc) init =
      init + 2 * ((l.countP fun nd => decide (nd.2.range < 15) : ℕ) : ℤ) -
        2 * ((l.countP fun nd => decide (30 < nd.2.range) : ℕ) : ℤ) := by
  induction l generalizing init with
  | nil => simp
  | cons hd tl ih =>
    rw [List.foldl_cons, ih]
    by_cases h1 : hd.2.range < 15
    · have h2 : ¬ 30 < hd.2.range := by
        intro hc
        linarith
      simp [List.countP_cons, h1, h2]
      all_goals omega
    · by_cases h2 : 30 < hd.2.range
      · simp [List.countP_cons, h1, h2]
        all_goals omega
      · simp [List.countP_cons, h1, h2]

/-- C3: the overall score is exactly the additive rule table of the
specification — base 70, tempo bonus, angle-consistency net capped at +15,
stability adjustment — and the result is always an integer clamped to
`[0, 100]`. -/
theorem c3_score_rule_table (a : SwingSequenceAnalysis) :
    calculate_overall_score a = spec_overall_score a ∧
      0 ≤ calculate_overall_score a ∧ calculate_overall_score a ≤ 100 := by
  refine ⟨?_, ?_, ?_⟩
  · simp only [calculate_overall_score, spec_overall_score]
    rw [angle_consistency_foldl]
    simp only [zero_add]
    cases htr : a.swing_metrics.tempo_ratio with
    | none => rfl
    | some t =>
      by_cases hA : 2.5 ≤ t ∧ t ≤ 3.5
      · simp [hA]
      · by_cases hB : 2 ≤ t ∧ t ≤ 4
        · simp [hA, hB]
        · simp [hA, hB]
  · simp only [calculate_overall_score]
    exact le_max_left 0 _
  · simp only [calculate_overall_score]
    exact max_le (by norm_num) (min_le_left _ _)

/-- The number of hip mid-points equals the number of frames carrying both
hip landmarks. -/
theorem hip_positions_length (swing_frames : List SwingFrame) :
    (hip_positions swing_frames).length =
      swing_frames.countP fun f =>
        (f.landmarks.lookup left_hip_key).isSome &&
          (f.landmarks.lookup right_hip_key).isSome := by
  induction swing_frames with
  | nil => rfl
  | cons hd tl ih =>
    simp only [hip_positions] at ih ⊢
    rw [List.filterMap_cons, List.countP_cons]
    cases hl : hd.landmarks.lookup left_hip_key <;>
      cases hr : hd.landmarks.lookup right_hip_key <;>
        simp [hl, hr, ih]

/-- C9: a scope's statistics map contains an angle key only if at least one
frame in the scope carries that angle (whole-sequence scope via
`_analyze_body_angles`, per-phase scope via `extract_phase_metrics`), and
`hip_stability` is present iff at least 2 frames carry both hip landmarks;
an empty sample set always yields absence, never a placeholder value. -/
theorem c9_presence_semantics :
    (∀ (swing_frames : List SwingFrame) (name : String),
        name ∈ (analyze_body_angles swing_frames).map Prod.fst →
          ∃ f ∈ swing_frames, (f.angles.lookup name).isSome) ∧
    (∀ (frame_data : List ServerFrame) (s e : ℕ),
        ((extract_phase_metrics frame_data s e).avg_spine_angle.isSome →
            ∃ f ∈ frame_data, s ≤ f.frame_index ∧ f.frame_index ≤ e ∧
              (f.angles.lookup spine_angle_key).isSome) ∧
          ((extract_phase_metrics frame_data s e).avg_left_arm_angle.isSome →
            ∃ f ∈ frame_data, s ≤ f.frame_index ∧ f.frame_index ≤ e ∧
              (f.angles.lookup left_arm_angle_key).isSome) ∧
          ((extract_phase_metrics frame_data s e).avg_right_arm_angle.isSome →
            ∃ f ∈ frame_data, s ≤ f.frame_index ∧ f.frame_index ≤ e ∧
              (f.angles.lookup right_arm_angle_key).isSome)) ∧
    (∀ swing_frames : List SwingFrame,
        (analyze_movement_patterns swing_frames).isSome ↔
          2 ≤ swing_frames.countP fun f =>
            (f.landmarks.lookup left_hip_key).isSome &&
              (f.landmarks.lookup right_hip_key).isSome) := by
  refine ⟨?_, ?_, ?_⟩
  · intro swing_frames name hmem
    obtain ⟨pair, hpair, hfst⟩ := List.mem_map.mp hmem
    obtain ⟨n0, hn0, hsome⟩ := List.mem_filterMap.mp hpair
    by_cases hv : angle_values swing_frames n0 = []
    · rw [if_pos hv] at hsome
      exact absurd hsome (by simp)
    · rw [if_neg hv] at hsome
      have hpairn : pair.1 = n0 := by
        have := Option.some.inj hsome
        rw [← this]
      have hname : n0 = name := by rw [← hfst, hpairn]
      subst hname
      obtain ⟨v, hvmem⟩ := List.exists_mem_of_ne_nil _ hv
      obtain ⟨f, hf, hlk⟩ := List.mem_filterMap.mp hvmem
      exact ⟨f, hf, by simp [hlk]⟩
  · intro fd s e
    have hgen : ∀ key : String, phase_angle_samples fd s e key ≠ [] →
        ∃ f ∈ fd, s ≤ f.frame_index ∧ f.frame_index ≤ e ∧
          (f.angles.lookup key).isSome := by
      intro key hne
      obtain ⟨v, hv⟩ := List.exists_mem_of_ne_nil _ hne
      simp only [phase_angle_samples] at hv
      obtain ⟨f, hf, hlk⟩ := List.mem_filterMap.mp hv
      simp only [phase_frames] at hf
      have hmemf := List.mem_filter.mp hf
      have hcond := of_decide_eq_true hmemf.2
      exact ⟨f, hmemf.1, hcond.1, hcond.2, by simp [hlk]⟩
    by_cases hpf : phase_frames fd s e = []
    · refine ⟨?_, ?_, ?_⟩ <;> intro hsome <;>
        · simp only [extract_phase_metrics] at hsome
          rw [if_pos hpf] at hsome
          simp at hsome
    · refine ⟨?_, ?_, ?_⟩ <;> intro hsome <;>
        simp only [extract_phase_metrics] at hsome <;>
          rw [if_neg hpf] at hsome
      · by_cases hs : phase_angle_samples fd s e spine_angle_key = []
        · rw [if_pos hs] at hsome
          simp at hsome
        · exact hgen spine_angle_key hs
      · by_cases hs : phase_angle_samples fd s e left_arm_angle_key = []
        · rw [if_pos hs] at hsome
          simp at hsome
        · exact hgen left_arm_angle_key hs
      · by_cases hs : phase_angle_samples fd s e right_arm_angle_key = []
        · rw [if_pos hs] at hsome
          simp at hsome
        · exact hgen right_arm_angle_key hs
  · intro swing_frames
    by_cases h : 1 < (hip_positions swing_frames).length
    · have h2 : 2 ≤ swing_frames.countP fun f =>
          (f.landmarks.lookup left_hip_key).isSome &&
            (f.landmarks.lookup right_hip_key).isSome := by
        rw [← hip_positions_length]; omega
      simp [analyze_movement_patterns, h, h2]
    · have h2 : ¬ 2 ≤ swing_frames.countP fun f =>
          (f.landmarks.lookup left_hip_key).isSome &&
            (f.landmarks.lookup right_hip_key).isSome := by
        rw [← hip_positions_length]; omega
      simp [analyze_movement_patterns, h, h2]

/-- C9 witness: the whole-sequence part applied at a concrete one-frame
sequence carrying a `spine_tilt` angle. -/
theorem c9_witness : ∃ f ∈ exFrames9, (f.angles.lookup spine_tilt_key).isSome :=
  c9_presence_semantics.1 exFrames9 spine_tilt_key (by decide)

/-- Each club-path rule output is one of its three candidate strings. -/
theorem mem_club_path_recs {m : FastMetrics} {x : String} (h : x ∈ club_path_recs m) :
    x ∈ club_candidates := by
  simp only [club_path_recs] at h
  split_ifs at h <;> simp_all [club_candidates]

theorem mem_face_to_path_recs {m : FastMetrics} {x : String}
    (h : x ∈ face_to_path_recs m) : x ∈ face_candidates := by
  simp only [face_to_path_recs] at h
  split_ifs at h <;> simp_all [face_candidates]

theorem mem_attack_angle_recs {m : FastMetrics} {x : String}
    (h : x ∈ attack_angle_recs m) : x ∈ attack_candidates := by
  simp only [attack_angle_recs] at h
  split_ifs at h <;> simp_all [attack_candidates]

theorem mem_fast_tempo_recs {m : FastMetrics} {x : String}
    (h : x ∈ fast_tempo_recs m) : x ∈ tempo_candidates := by
  simp only [fast_tempo_recs] at h
  split_ifs at h <;> simp_all [tempo_candidates]

theorem mem_swing_speed_recs {m : FastMetrics} {x : String}
    (h : x ∈ swing_speed_recs m) : x ∈ speed_candidates := by
  simp only [swing_speed_recs] at h
  split_ifs at h <;> simp_all [speed_candidates]

theorem club_path_recs_nodup (m : FastMetrics) : (club_path_recs m).Nodup := by
  simp only [club_path_recs]
  split_ifs <;> simp

theorem face_to_path_recs_nodup (m : FastMetrics) : (face_to_path_recs m).Nodup := by
  simp only [face_to_path_recs]
  split_ifs <;> simp

theorem attack_angle_recs_nodup (m : FastMetrics) : (attack_angle_recs m).Nodup := by
  simp only [attack_angle_recs]
  split_ifs <;> simp

theorem fast_tempo_recs_nodup (m : FastMetrics) : (fast_tempo_recs m).Nodup := by
  simp only [fast_tempo_recs]
  split_ifs <;> simp

theorem swing_speed_recs_nodup (m : FastMetrics) : (swing_speed_recs m).Nodup := by
  simp only [swing_speed_recs]
  split_ifs <;> simp

theorem club_path_recs_length (m : FastMetrics) : (club_path_recs m).length ≤ 1 := by
  simp only [club_path_recs]
  split_ifs <;> simp

theorem face_to_path_recs_length (m : FastMetrics) : (face_to_path_recs m).length ≤ 1 := by
  simp only [face_to_path_recs]
  split_ifs <;> simp

theorem attack_angle_recs_length (m : FastMetrics) : (attack_angle_recs m).length = 1 := by
  simp only [attack_angle_recs]
  split_ifs <;> simp

theorem fast_tempo_recs_length (m : FastMetrics) : (fast_tempo_recs m).length = 1 := by
  simp only [fast_tempo_recs]
  split_ifs <;> simp

theorem swing_speed_recs_length (m : FastMetrics) : (swing_speed_recs m).length ≤ 1 := by
  simp only [swing_speed_recs]
  split_ifs <;> simp

/-- Two lists drawn from disjoint candidate pools are disjoint. -/
theorem disjoint_of_mem_subset {l1 l2 c1 c2 : List String}
    (h1 : ∀ x ∈ l1, x ∈ c1) (h2 : ∀ x ∈ l2, x ∈ c2)
    (hd : ∀ x ∈ c1, x ∉ c2) : l1.Disjoint l2 := by
  intro a ha hb
  exact hd a (h1 a ha) (h2 a hb)

/-- The rule outputs carry no duplicate strings: each slot emits at most one
string, from pairwise-disjoint candidate pools. -/
theorem fast_rule_recs_nodup (m : FastMetrics) : (fast_rule_recs m).Nodup := by
  have mc : ∀ x ∈ club_path_recs m, x ∈ club_candidates := fun x hx => mem_club_path_recs hx
  have mf : ∀ x ∈ face_to_path_recs m, x ∈ face_candidates :=
    fun x hx => mem_face_to_path_recs hx
  have ma : ∀ x ∈ attack_angle_recs m, x ∈ attack_candidates :=
    fun x hx => mem_attack_angle_recs hx
  have mt : ∀ x ∈ fast_tempo_recs m, x ∈ tempo_candidates :=
    fun x hx => mem_fast_tempo_recs hx
  have ms : ∀ x ∈ swing_speed_recs m, x ∈ speed_candidates :=
    fun x hx => mem_swing_speed_recs hx
  have n_cf : (club_path_recs m ++ face_to_path_recs m).Nodup :=
    (club_path_recs_nodup m).append (face_to_path_recs_nodup m)
      (disjoint_of_mem_subset mc mf (by decide))
  have m_cf : ∀ x ∈ club_path_recs m ++ face_to_path_recs m,
      x ∈ club_candidates ++ face_candidates := by
    intro x hx
    rcases List.mem_append.mp hx with h | h
    · exact List.mem_append.mpr (Or.inl (mc x h))
    · exact List.mem_append.mpr (Or.inr (mf x h))
  have n_cfa : (club_path_recs m ++ face_to_path_recs m ++ attack_angle_recs m).Nodup :=
    n_cf.append (attack_angle_recs_nodup m)
      (disjoint_of_mem_subset m_cf ma (by decide))
  have m_cfa : ∀ x ∈ club_path_recs m ++ face_to_path_recs m ++ attack_angle_recs m,
      x ∈ club_candidates ++ face_candidates ++ attack_candidates := by
    intro x hx
    rcases List.mem_append.mp hx with h | h
    · exact List.mem_append.mpr (Or.inl (m_cf x h))
    · exact List.mem_append.mpr (Or.inr (ma x h))
  have n_cfat : (club_path_recs m ++ face_to_path_recs m ++ attack_angle_recs m
      ++ fast_tempo_recs m).Nodup :=
    n_cfa.append (fast_tempo_recs_nodup m)
      (disjoint_of_mem_subset m_cfa mt (by decide))
  have m_cfat : ∀ x ∈ club_path_recs m ++ face_to_path_recs m ++ attack_angle_recs m
      ++ fast_tempo_recs m,
      x ∈ club_candidates ++ face_candidates ++ attack_candidates ++ tempo_candidates := by
    intro x hx
    rcases List.mem_append.mp hx with h | h
    · exact List.mem_append.mpr (Or.inl (m_cfa x h))
    · exact List.mem_append.mpr (Or.inr (mt x h))
  exact n_cfat.append (swing_speed_recs_nodup m)
    (disjoint_of_mem_subset m_cfat ms (by decide))

/-- Every rule output string belongs to the fixed candidate pool. -/
theorem mem_fast_rule_recs {m : FastMetrics} {x : String} (h : x ∈ fast_rule_recs m) :
    x ∈ rule_candidates := by
  unfold fast_rule_recs at h
  unfold rule_candidates
  simp only [List.mem_append] at h ⊢
  rcases h with ((((h | h) | h) | h) | h)
  · exact Or.inl (Or.inl (Or.inl (Or.inl (mem_club_path_recs h))))
  · exact Or.inl (Or.inl (Or.inl (Or.inr (mem_face_to_path_recs h))))
  · exact Or.inl (Or.inl (Or.inr (mem_attack_angle_recs h)))
  · exact Or.inl (Or.inr (mem_fast_tempo_recs h))
  · exact Or.inr (mem_swing_speed_recs h)

/-- No generic-pool entry can be produced by a threshold rule. -/
theorem pool_not_in_rules (m : FastMetrics) :
    ∀ p ∈ additional_pool, p ∉ fast_rule_recs m := by
  intro p hp hmem
  have hall : ∀ x ∈ additional_pool, x ∉ rule_candidates := by decide
  exact hall p hp (mem_fast_rule_recs hmem)

theorem fast_rule_recs_length_lb (m : FastMetrics) : 2 ≤ (fast_rule_recs m).length := by
  have ha := attack_angle_recs_length m
  have ht := fast_tempo_recs_length m
  unfold fast_rule_recs
  simp only [List.length_append]
  omega

theorem fast_rule_recs_length_ub (m : FastMetrics) : (fast_rule_recs m).length ≤ 5 := by
  have hc := club_path_recs_length m
  have hf := face_to_path_recs_length m
  have ha := attack_angle_recs_length m
  have ht := fast_tempo_recs_length m
  have hs := swing_speed_recs_length m
  unfold fast_rule_recs
  simp only [List.length_append]
  omega

theorem topUp_nil (recs : List String) : topUp recs [] = recs := rfl

theorem topUp_cons (recs : List String) (r : String) (rest : List String) :
    topUp recs (r :: rest) =
      if r ∈ recs then topUp recs rest
      else if 5 ≤ (recs ++ [r]).length then recs ++ [r]
      else topUp (recs ++ [r]) rest := rfl

/-- The top-up loop only ever appends strings not already present, so it
preserves `Nodup`. -/
theorem topUp_nodup (pool : List String) :
    ∀ recs : List String, recs.Nodup → (topUp recs pool).Nodup := by
  induction pool with
  | nil =>
    intro recs h
    rw [topUp_nil]
    exact h
  | cons r rest ih =>
    intro recs h
    rw [topUp_cons]
    by_cases hr : r ∈ recs
    · rw [if_pos hr]
      exact ih recs h
    · rw [if_neg hr]
      have hnd : (recs ++ [r]).Nodup := by
        simp [List.nodup_append, h, hr]
      by_cases h5 : 5 ≤ (recs ++ [r]).length
      · rw [if_pos h5]
        exact hnd
      · rw [if_neg h5]
        exact ih _ hnd

/-- Starting from 2 rule strings foreign to the generic pool, the top-up loop
appends exactly the first three generic entries (the length check breaks the
loop at 5). -/
theorem topUp_of_two (recs : List String) (h2 : recs.length = 2)
    (hp : ∀ p ∈ additional_pool, p ∉ recs) :
    topUp recs additional_pool = recs ++ [pool_1, pool_2, pool_3] := by
  have h1 : pool_1 ∉ recs := hp pool_1 (by simp [additional_pool])
  have hq2 : pool_2 ∉ recs := hp pool_2 (by simp [additional_pool])
  have hq3 : pool_3 ∉ recs := hp pool_3 (by simp [additional_pool])
  have d21 : pool_2 ≠ pool_1 := by decide
  have d31 : pool_3 ≠ pool_1 := by decide
  have d32 : pool_3 ≠ pool_2 := by decide
  rw [additional_pool]
  rw [topUp_cons, if_neg h1, if_neg (by simp [List.length_append, h2])]
  rw [topUp_cons, if_neg (by simp [hq2, d21]),
    if_neg (by simp [List.length_append, h2])]
  rw [topUp_cons, if_neg (by simp [hq3, d31, d32]),
    if_pos (by simp [List.length_append, h2])]
  simp

/-- C5 amended: the fast-analysis recommender always returns between 3 and 6
recommendations (in fact between 3 and 5: when fewer than 3 rules fire, the
top-up loop fills to 5, and the `[:6]` cap never bites) with no duplicate
strings; the swing-analyzer recommender gives no such lower bound. -/
theorem c5_amended (m : FastMetrics) :
    3 ≤ (fast_generate_recommendations m).length ∧
      (fast_generate_recommendations m).length ≤ 6 ∧
      (fast_generate_recommendations m).Nodup := by
  have hnd := fast_rule_recs_nodup m
  have hlb := fast_rule_recs_length_lb m
  have hub := fast_rule_recs_length_ub m
  simp only [fast_generate_recommendations]
  by_cases h3 : (fast_rule_recs m).length < 3
  · rw [if_pos h3]
    have h2 : (fast_rule_recs m).length = 2 := by omega
    have hp := pool_not_in_rules m
    rw [topUp_of_two _ h2 hp]
    have hlen : (fast_rule_recs m ++ [pool_1, pool_2, pool_3]).length = 5 := by
      simp [h2]
    have hnd5 : (fast_rule_recs m ++ [pool_1, pool_2, pool_3]).Nodup := by
      refine hnd.append (by decide) ?_
      intro a ha hb
      have hap : a ∈ additional_pool := by
        simp only [additional_pool, List.mem_cons, List.mem_singleton]
        simp only [List.mem_cons, List.mem_singleton] at hb
        tauto
      exact hp a hap ha
    refine ⟨?_, ?_, ?_⟩
    · rw [List.length_take, hlen]
      omega
    · rw [List.length_take, hlen]
      omega
    · exact List.Sublist.nodup (List.take_sublist _ _) hnd5
  · rw [if_neg h3]
    push_neg at h3
    refine ⟨?_, ?_, ?_⟩
    · rw [List.length_take]
      omega
    · rw [List.length_take]
      omega
    · exact List.Sublist.nodup (List.take_sublist _ _) hnd

/-- C5 counterexample: the swing-analyzer recommender, fed a metric set whose
only usable metric is a healthy tempo, emits exactly one recommendation —
the claimed lower bound of 3 fails on that copy of the recommender. -/
theorem c5_counterexample :
    generate_recommendations exSwingTempoOnly = [rec_good_tempo] ∧
      ¬ 3 ≤ (generate_recommendations exSwingTempoOnly).length := by
  have h : generate_recommendations exSwingTempoOnly = [rec_good_tempo] := by
    simp only [generate_recommendations, exSwingTempoOnly, List.lookup]
    norm_num
  refine ⟨h, ?_⟩
  rw [h]
  norm_num
